import Mathlib

/-!
Verification development for the speakturbo streaming TTS server.

The Python sources `daemon.py` (FastAPI endpoints `/tts`, `/tts/buffered`,
model/voice-state caches, WAV header and PCM encoding) and `raw_server.py`
(line-delimited raw-socket transport) are embedded shallowly below:

* bytes are natural numbers `< 256`, byte strings are `List ℕ`;
* floating-point audio samples are modelled by rationals `ℚ` (the clamp /
  scale / truncate pipeline only uses exact arithmetic on the values the
  claims quantify over);
* the process-wide mutable globals `_model` and `_voice_states` become an
  explicit state record threaded through the handlers;
* the opaque `pocket_tts.TTSModel` collaborator becomes a structure of
  functions, parameterised by the type of its opaque voice states.
-/

namespace SpeakTurbo

/-- Byte strings: lists of naturals, each kept below 256 by construction. -/
abbrev Bytes := List ℕ

/-- Little-endian serialisation of a 16-bit unsigned value
(`struct.pack` format character H). -/
def u16le (n : ℕ) : Bytes := [n % 256, n / 256 % 256]

/-- Little-endian serialisation of a 32-bit unsigned value
(`struct.pack` format character I). -/
def u32le (n : ℕ) : Bytes := [n % 256, n / 256 % 256, n / 65536 % 256, n / 16777216 % 256]

/-- Little-endian value of a byte string (inverse of `u16le`/`u32le`
on in-range inputs). -/
def leVal (bs : Bytes) : ℕ := bs.foldr (fun b acc => b + 256 * acc) 0

/-- ASCII bytes of a four-character tag (`struct.pack` format 4s). -/
def tag (s : String) : Bytes := s.toList.map Char.toNat

/-- The sub-list of `l` from index `a` (inclusive) to `b` (exclusive). -/
def slice (l : Bytes) (a b : ℕ) : Bytes := (l.drop a).take (b - a)

/-- `daemon.py` line 25: the available voices. -/
def VOICES : List String :=
  ["alba", "marius", "javert", "jean", "fantine", "cosette", "eponine", "azelma"]

/-- Python `str.strip()` whitespace set (ASCII part). -/
def pyIsSpace (c : Char) : Bool :=
  c = ' ' || c = '\t' || c = '\n' || c = '\r' || c = '\x0b' || c = '\x0c'

/-- Python `str.strip()` on a character list: drop leading and trailing
whitespace. -/
def pystripList (l : List Char) : List Char :=
  ((l.dropWhile pyIsSpace).reverse.dropWhile pyIsSpace).reverse

/-- Python `str.strip()`. -/
def pystrip (s : String) : String := ⟨pystripList s.toList⟩

/-- Python `str.split(sep)` for a one-character separator: splitting the
empty string yields `[[]]`, i.e. the result is never empty. -/
def pysplit (sep : Char) : List Char → List (List Char)
  | [] => [[]]
  | c :: cs =>
    if c = sep then [] :: pysplit sep cs
    else
      match pysplit sep cs with
      | [] => [[c]]
      | w :: ws => (c :: w) :: ws

/-- One audio frame: a list of mono floating-point samples, modelled as
rationals. -/
abbrev Frame := List ℚ

/-- `torch.Tensor.clamp(-1, 1)` on one sample. -/
def clamp (x : ℚ) : ℚ := max (-1) (min 1 x)

/-- Truncation toward zero, the conversion performed by
`torch.Tensor.short()` (C-style cast to int16). -/
def truncQ (q : ℚ) : ℤ := if 0 ≤ q then ⌊q⌋ else ⌈q⌉

/-- One sample of `(chunk.clamp(-1, 1) * 32767).short()`. -/
def sampleToInt16 (x : ℚ) : ℤ := truncQ (clamp x * 32767)

/-- Two's-complement little-endian bytes of an int16 value
(numpy `tobytes()` on a little-endian platform). -/
def int16le (z : ℤ) : Bytes := u16le (z % 65536).toNat

/-- `daemon.py` lines 102-106, `pcm_from_chunk`: clamp, scale by 32767,
truncate to int16, serialise little-endian. -/
def pcm_from_chunk (chunk : Frame) : Bytes :=
  (chunk.map (fun x => int16le (sampleToInt16 x))).flatten

/-- `daemon.py` lines 69-99, `make_wav_header(sample_rate, num_channels,
bits_per_sample)`: 44-byte WAV header with the streaming sentinel data
size `0x7FFFFFFF`. -/
def make_wav_header (sample_rate : ℕ) (num_channels : ℕ) (bits_per_sample : ℕ) : Bytes :=
  let byte_rate := sample_rate * num_channels * bits_per_sample / 8
  let block_align := num_channels * bits_per_sample / 8
  let data_size : ℕ := 0x7FFFFFFF
  let file_size := data_size + 36
  tag ("RIFF") ++ u32le file_size ++ tag ("WAVE") ++ tag ("fmt ") ++ u32le 16 ++
    u16le 1 ++ u16le num_channels ++ u32le sample_rate ++ u32le byte_rate ++
    u16le block_align ++ u16le bits_per_sample ++ tag ("data") ++ u32le data_size

/-- `raw_server.py` lines 20-30, `make_wav_header(sample_rate)`: the raw
server's copy, hard-wired to 16-bit mono. -/
def raw_make_wav_header (sample_rate : ℕ) : Bytes :=
  let byte_rate := sample_rate * 2
  let data_size : ℕ := 0x7FFFFFFF
  let file_size := data_size + 36
  tag ("RIFF") ++ u32le file_size ++ tag ("WAVE") ++ tag ("fmt ") ++ u32le 16 ++
    u16le 1 ++ u16le 1 ++ u32le sample_rate ++ u32le byte_rate ++ u16le 2 ++
    u16le 16 ++ tag ("data") ++ u32le data_size

/-- `int(sample_rate * 0.2)` (daemon.py line 128, raw_server.py line 65):
Python `int()` truncates toward zero, so under exact arithmetic the sample
count is `sample_rate / 5` (natural division).  At the only sample rate the
system uses (24000 Hz) the double-precision product `24000 * 0.2` rounds to
exactly `4800.0`, so the floating-point computation agrees with this
embedding. -/
def silence_samples (sample_rate : ℕ) : ℕ := sample_rate / 5

/-- `bytes(silence_samples * 2)`: the trailing block of zero bytes
(200 ms of 16-bit silence). -/
def silence_block (sample_rate : ℕ) : Bytes :=
  List.replicate (silence_samples sample_rate * 2) 0

/-- `daemon.py` lines 109-129, `generate_streaming_wav`: the generator
yields the header, then one PCM chunk per audio frame in production order,
then the trailing silence.  Each list element is one `yield`. -/
def generate_streaming_wav (audio_chunks : List Frame) (sample_rate : ℕ) : List Bytes :=
  [make_wav_header sample_rate 1 16] ++ audio_chunks.map pcm_from_chunk ++
    [silence_block sample_rate]

/-- The opaque `pocket_tts.TTSModel` collaborator, parameterised by the
type `σ` of its opaque voice states. -/
structure Model (σ : Type) where
  sample_rate : ℕ
  get_state_for_audio_prompt : String → σ
  generate_audio_stream : σ → String → List Frame

/-- The daemon's process-wide mutable globals plus call-count
instrumentation on the engine collaborator: `load_count` counts executed
`TTSModel.load_model()` calls, `prompt_calls` logs the arguments of
executed `get_state_for_audio_prompt` calls. -/
structure DaemonState (σ : Type) where
  _model : Option (Model σ)
  _voice_states : List (String × σ)
  load_count : ℕ
  prompt_calls : List String

/-- The state at process start: nothing loaded, no cached voices. -/
def initState (σ : Type) : DaemonState σ := ⟨none, [], 0, []⟩

/-- First-match lookup in the association list modelling the
`_voice_states` dict (keys are unique because entries are only added on
miss). -/
def lookupVoice {σ : Type} (m : List (String × σ)) (v : String) : Option σ :=
  match m with
  | [] => none
  | (k, s) :: rest => if k = v then some s else lookupVoice rest v

/-- `daemon.py` lines 32-39, `get_model`: return the global model,
loading it first if it is `None`.  The external `TTSModel.load_model()`
is the parameter `loader`; executing it increments `load_count`. -/
def get_model {σ : Type} (loader : Model σ) (st : DaemonState σ) :
    Model σ × DaemonState σ :=
  match st._model with
  | some m => (m, st)
  | none => (loader, { st with _model := some loader, load_count := st.load_count + 1 })

/-- `daemon.py` lines 42-49, `get_voice_state`: return the cached state
for `voice`, computing and storing it on miss. -/
def get_voice_state {σ : Type} (loader : Model σ) (st : DaemonState σ) (voice : String) :
    σ × DaemonState σ :=
  match lookupVoice st._voice_states voice with
  | some s => (s, st)
  | none =>
    let res := get_model loader st
    let s := res.1.get_state_for_audio_prompt voice
    (s, { res.2 with _voice_states := res.2._voice_states ++ [(voice, s)],
                     prompt_calls := res.2.prompt_calls ++ [voice] })

/-- A FastAPI `HTTPException`. -/
structure HTTPError where
  status_code : ℕ
  detail : String
deriving DecidableEq

/-- The possible outcomes of the two HTTP endpoints: an `HTTPException`,
a `StreamingResponse` over a chunk generator, or a single buffered body. -/
inductive Response where
  | error (e : HTTPError)
  | streaming (chunks : List Bytes) (media_type : String) (x_sample_rate : ℕ)
  | buffered (body : Bytes) (media_type : String)
deriving DecidableEq

/-- A single-quote character, as used by Python `repr` of strings. -/
def sq : String := String.singleton (Char.ofNat 39)

/-- Python `repr` of the `VOICES` list, as interpolated by the f-string
in the 400 detail message. -/
def voices_repr : String :=
  ("[") ++ String.intercalate (", ") (VOICES.map (fun v => sq ++ v ++ sq)) ++ ("]")

/-- The detail message of the unknown-voice 400 error
(daemon.py lines 149-152). -/
def invalid_voice_detail (voice : String) : String :=
  ("Invalid voice ") ++ sq ++ voice ++ sq ++ (". Available: ") ++ voices_repr

/-- `daemon.py` lines 132-174, the `/tts` handler `text_to_speech`:
validate text then voice, resolve model and voice state, return the
streaming response built by `generate_streaming_wav`. -/
def text_to_speech {σ : Type} (loader : Model σ) (st : DaemonState σ)
    (text voice : String) : Response × DaemonState σ :=
  if text = ("") ∨ pystrip text = ("") then
    (.error ⟨400, "Text cannot be empty"⟩, st)
  else if voice ∉ VOICES then
    (.error ⟨400, invalid_voice_detail voice⟩, st)
  else
    let mres := get_model loader st
    let vres := get_voice_state loader mres.2 voice
    let chunks := mres.1.generate_audio_stream vres.1 (pystrip text)
    (.streaming (generate_streaming_wav chunks mres.1.sample_rate) ("audio/wav")
      mres.1.sample_rate, vres.2)

/-- Modelled from the spec: the serialisation performed by the Python
standard-library `wave` module (not part of this repository's sources) is
the spec's `exactHeader(sampleRate, payloadByteCount)` - a 44-byte header
whose data size equals the payload byte count and whose file size equals
`payloadByteCount + 36`, for 16-bit mono PCM. -/
def exactHeader (sample_rate : ℕ) (payload_len : ℕ) : Bytes :=
  tag ("RIFF") ++ u32le (payload_len + 36) ++ tag ("WAVE") ++ tag ("fmt ") ++ u32le 16 ++
    u16le 1 ++ u16le 1 ++ u32le sample_rate ++ u32le (sample_rate * 2) ++ u16le 2 ++
    u16le 16 ++ tag ("data") ++ u32le payload_len

/-- `daemon.py` lines 178-224, the `/tts/buffered` handler
`text_to_speech_buffered`: same validation, then the frame sequence is
drained into a list; an empty list is a 500, otherwise the frames are
concatenated (`torch.cat`), PCM-encoded, and wrapped in an exact-size WAV
container. -/
def text_to_speech_buffered {σ : Type} (loader : Model σ) (st : DaemonState σ)
    (text voice : String) : Response × DaemonState σ :=
  if text = ("") ∨ pystrip text = ("") then
    (.error ⟨400, "Text cannot be empty"⟩, st)
  else if voice ∉ VOICES then
    (.error ⟨400, invalid_voice_detail voice⟩, st)
  else
    let mres := get_model loader st
    let vres := get_voice_state loader mres.2 voice
    let audio_chunks := mres.1.generate_audio_stream vres.1 (pystrip text)
    if audio_chunks = [] then
      (.error ⟨500, "No audio generated"⟩, vres.2)
    else
      let audio := audio_chunks.flatten
      let payload := pcm_from_chunk audio
      (.buffered (exactHeader mres.1.sample_rate payload.length ++ payload)
        ("audio/wav"), vres.2)

/-- The raw server's shared mutable state: the `voice_states` dict plus
call instrumentation on `get_state_for_audio_prompt`. -/
structure RawState (σ : Type) where
  voice_states : List (String × σ)
  prompt_calls : List String

/-- `raw_server.py` lines 36-40: strip the received data, split on
newlines, take the first line as the voice (default alba) and the second
as the text (default Hello world). -/
def parse_request (data : String) : String × String :=
  let lines := pysplit '\n' (pystripList data.toList)
  let voice : String := match lines with | [] => ("alba") | v :: _ => ⟨v⟩
  let text : String := match lines with | _ :: t :: _ => ⟨t⟩ | _ => ("Hello world")
  (voice, text)

/-- The sequence of `conn.sendall` payloads of `handle_client` on the
success path: the header, one PCM chunk per frame, the silence block. -/
def raw_sends {σ : Type} (m : Model σ) (chunks : List Frame) : List Bytes :=
  [raw_make_wav_header m.sample_rate] ++ chunks.map pcm_from_chunk ++
    [silence_block m.sample_rate]

/-- `raw_server.py` lines 44-47: resolve the voice state in the raw
server, computing and storing on miss, with no validation of the voice
name. -/
def raw_resolve_state {σ : Type} (m : Model σ) (st : RawState σ) (voice : String) :
    σ × RawState σ :=
  match lookupVoice st.voice_states voice with
  | some s => (s, st)
  | none =>
    let s := m.get_state_for_audio_prompt voice
    (s, ⟨st.voice_states ++ [(voice, s)], st.prompt_calls ++ [voice]⟩)

/-- `raw_server.py` lines 33-73, `handle_client`: parse the request,
resolve the voice state, then send header, frames and silence.  Returns
the concatenated bytes sent and the updated shared state. -/
def handle_client {σ : Type} (m : Model σ) (st : RawState σ) (data : String) :
    Bytes × RawState σ :=
  let req := parse_request data
  let vres := raw_resolve_state m st req.1
  let chunks := m.generate_audio_stream vres.1 req.2
  ((raw_sends m chunks).flatten, vres.2)

/-- Number of occurrences of a string in a list (call-count
instrumentation). -/
def countStr (v : String) : List String → ℕ
  | [] => 0
  | w :: ws => (if w = v then 1 else 0) + countStr v ws

/-- Program counter of one thread executing `get_model`.  The Python
body `if _model is None: _model = TTSModel.load_model()` is two separate
interpreter steps: the read/check of `_model`, and (when the check saw
`None`) the load plus the write back; a thread switch may occur between
them. -/
inductive TPC where
  | start
  | checked (sawNone : Bool)
  | done

/-- Two threads concurrently calling `get_model` on the shared global. -/
structure ConcState (σ : Type) where
  g_model : Option (Model σ)
  loads : ℕ
  pc1 : TPC
  pc2 : TPC

/-- Concurrency machine start state: model unloaded, both threads about
to execute `get_model`. -/
def concInit (σ : Type) : ConcState σ := ⟨none, 0, .start, .start⟩

/-- One interpreter step of a single thread of `get_model`. -/
def threadStep {σ : Type} (loader : Model σ) (g : Option (Model σ)) (loads : ℕ)
    (pc : TPC) : Option (Model σ) × ℕ × TPC :=
  match pc with
  | .start => (g, loads, .checked g.isNone)
  | .checked sawNone =>
    if sawNone then (some loader, loads + 1, .done) else (g, loads, .done)
  | .done => (g, loads, .done)

/-- Run one step of the chosen thread (`true` = thread 1). -/
def concStep {σ : Type} (loader : Model σ) (s : ConcState σ) (tid : Bool) : ConcState σ :=
  if tid then
    let r := threadStep loader s.g_model s.loads s.pc1
    ⟨r.1, r.2.1, r.2.2, s.pc2⟩
  else
    let r := threadStep loader s.g_model s.loads s.pc2
    ⟨r.1, r.2.1, s.pc1, r.2.2⟩

/-- Run a schedule (list of thread choices) from a state. -/
def concRun {σ : Type} (loader : Model σ) (s : ConcState σ) : List Bool → ConcState σ
  | [] => s
  | t :: ts => concRun loader (concStep loader s t) ts

/-- Iterate sequential `get_model` calls from the start state. -/
def iterate_get_model {σ : Type} (loader : Model σ) : ℕ → DaemonState σ
  | 0 => initState σ
  | n + 1 => (get_model loader (iterate_get_model loader n)).2

/-- Run a sequence of sequential `get_voice_state` calls. -/
def run_voice_requests {σ : Type} (loader : Model σ) (st : DaemonState σ) :
    List String → DaemonState σ
  | [] => st
  | v :: rest => run_voice_requests loader (get_voice_state loader st v).2 rest

/-- A concrete engine instance for witnesses: voice states are naturals,
generation yields one fixed frame. -/
def mA : Model ℕ :=
  ⟨24000, fun _ => 0, fun _ _ => [[1/2, -2, 0]]⟩

/-- A concrete engine instance whose single generated frame holds the
single sample `1.0` (PCM bytes `[255, 127]`). -/
def mB : Model ℕ :=
  ⟨24000, fun _ => 0, fun _ _ => [[1]]⟩

theorem leVal_nil : leVal [] = 0 := rfl

theorem leVal_u32le {n : ℕ} (h : n < 4294967296) : leVal (u32le n) = n := by
  simp [leVal, u32le]
  omega

/-- The daemon's streaming header, written out as an explicit byte list. -/
theorem make_wav_header_eq (sr : ℕ) :
    make_wav_header sr 1 16 =
      [82, 73, 70, 70, 35, 0, 0, 128, 87, 65, 86, 69, 102, 109, 116, 32,
       16, 0, 0, 0, 1, 0, 1, 0] ++ u32le sr ++ u32le (sr * 1 * 16 / 8) ++
      [2, 0, 16, 0, 100, 97, 116, 97, 255, 255, 255, 127] := rfl

/-- The raw server's streaming header, written out as an explicit byte
list. -/
theorem raw_make_wav_header_eq (sr : ℕ) :
    raw_make_wav_header sr =
      [82, 73, 70, 70, 35, 0, 0, 128, 87, 65, 86, 69, 102, 109, 116, 32,
       16, 0, 0, 0, 1, 0, 1, 0] ++ u32le sr ++ u32le (sr * 2) ++
      [2, 0, 16, 0, 100, 97, 116, 97, 255, 255, 255, 127] := rfl

/-- Claim C2: for every sample rate (within the range `struct.pack`
accepts for the derived 32-bit byte-rate field), the streaming header is
exactly 44 bytes, the raw server's copy is byte-identical to the daemon's
at mono/16-bit, and the little-endian layout is: RIFF, total size
`0x7FFFFFFF + 36`, WAVE, fmt-space, sub-chunk size 16, format code 1,
1 channel, the sample rate, byte rate `sr * 1 * 16 / 8`, block align
`1 * 16 / 8`, bits-per-sample 16, data, and data size `0x7FFFFFFF`. -/
theorem C2_header_layout (sr : ℕ) (h : sr * 2 < 4294967296) :
    (make_wav_header sr 1 16).length = 44 ∧
    raw_make_wav_header sr = make_wav_header sr 1 16 ∧
    slice (make_wav_header sr 1 16) 0 4 = tag ("RIFF") ∧
    leVal (slice (make_wav_header sr 1 16) 4 8) = 0x7FFFFFFF + 36 ∧
    slice (make_wav_header sr 1 16) 8 12 = tag ("WAVE") ∧
    slice (make_wav_header sr 1 16) 12 16 = tag ("fmt ") ∧
    leVal (slice (make_wav_header sr 1 16) 16 20) = 16 ∧
    leVal (slice (make_wav_header sr 1 16) 20 22) = 1 ∧
    leVal (slice (make_wav_header sr 1 16) 22 24) = 1 ∧
    leVal (slice (make_wav_header sr 1 16) 24 28) = sr ∧
    leVal (slice (make_wav_header sr 1 16) 28 32) = sr * 1 * 16 / 8 ∧
    leVal (slice (make_wav_header sr 1 16) 32 34) = 1 * 16 / 8 ∧
    leVal (slice (make_wav_header sr 1 16) 34 36) = 16 ∧
    slice (make_wav_header sr 1 16) 36 40 = tag ("data") ∧
    leVal (slice (make_wav_header sr 1 16) 40 44) = 0x7FFFFFFF := by
  refine ⟨by simp [make_wav_header_eq, u32le], ?_, ?_, ?_, ?_, ?_, ?_, ?_, ?_, ?_, ?_,
    ?_, ?_, ?_, ?_⟩
  · simp only [make_wav_header_eq, raw_make_wav_header_eq]
    rw [show sr * 1 * 16 / 8 = sr * 2 from by omega]
  · simp [make_wav_header_eq, u32le, slice, tag]
  · rw [show slice (make_wav_header sr 1 16) 4 8 = [35, 0, 0, 128] from by
      simp [make_wav_header_eq, u32le, slice]]
    rfl
  · simp [make_wav_header_eq, u32le, slice, tag]
  · simp [make_wav_header_eq, u32le, slice, tag]
  · rw [show slice (make_wav_header sr 1 16) 16 20 = [16, 0, 0, 0] from by
      simp [make_wav_header_eq, u32le, slice]]
    rfl
  · rw [show slice (make_wav_header sr 1 16) 20 22 = [1, 0] from by
      simp [make_wav_header_eq, u32le, slice]]
    rfl
  · rw [show slice (make_wav_header sr 1 16) 22 24 = [1, 0] from by
      simp [make_wav_header_eq, u32le, slice]]
    rfl
  · simp [make_wav_header_eq, u32le, slice, leVal]
    omega
  · simp [make_wav_header_eq, u32le, slice, leVal]
    omega
  · rw [show slice (make_wav_header sr 1 16) 32 34 = [2, 0] from by
      simp [make_wav_header_eq, u32le, slice]]
    rfl
  · rw [show slice (make_wav_header sr 1 16) 34 36 = [16, 0] from by
      simp [make_wav_header_eq, u32le, slice]]
    rfl
  · simp [make_wav_header_eq, u32le, slice, tag]
  · rw [show slice (make_wav_header sr 1 16) 40 44 = [255, 255, 255, 127] from by
      simp [make_wav_header_eq, u32le, slice]]
    rfl

/-- Witness for `C2_header_layout` at the system's fixed sample rate. -/
theorem C2_header_layout_witness :
    24000 * 2 < 4294967296 ∧ leVal (slice (make_wav_header 24000 1 16) 24 28) = 24000 :=
  ⟨by norm_num,
    (C2_header_layout 24000 (by norm_num)).2.2.2.2.2.2.2.2.2.1⟩

theorem clamp_le (x : ℚ) : clamp x ≤ 1 :=
  max_le (by norm_num) (min_le_left _ _)

theorem le_clamp (x : ℚ) : -1 ≤ clamp x := le_max_left _ _

theorem sampleToInt16_bounds (x : ℚ) :
    -32767 ≤ sampleToInt16 x ∧ sampleToInt16 x ≤ 32767 := by
  have h1 := le_clamp x
  have h2 := clamp_le x
  have hl : (-32767 : ℚ) ≤ clamp x * 32767 := by nlinarith
  have hu : clamp x * 32767 ≤ 32767 := by nlinarith
  unfold sampleToInt16 truncQ
  split
  · rename_i hq
    constructor
    · have : (0 : ℤ) ≤ ⌊clamp x * 32767⌋ := Int.le_floor.mpr (by exact_mod_cast hq)
      omega
    · have : (⌊clamp x * 32767⌋ : ℚ) ≤ 32767 := le_trans (Int.floor_le _) hu
      exact_mod_cast this
  · rename_i hq
    push_neg at hq
    constructor
    · have : (-32767 : ℚ) ≤ (⌈clamp x * 32767⌉ : ℚ) := le_trans hl (Int.le_ceil _)
      exact_mod_cast this
    · have : ⌈clamp x * 32767⌉ ≤ (0 : ℤ) := Int.ceil_le.mpr (by exact_mod_cast hq.le)
      omega

theorem int16le_length (z : ℤ) : (int16le z).length = 2 := rfl

theorem pcm_from_chunk_cons (x : ℚ) (xs : List ℚ) :
    pcm_from_chunk (x :: xs) = int16le (sampleToInt16 x) ++ pcm_from_chunk xs := by
  simp [pcm_from_chunk]

theorem pcm_from_chunk_length (chunk : Frame) :
    (pcm_from_chunk chunk).length = 2 * chunk.length := by
  induction chunk with
  | nil => rfl
  | cons x xs ih =>
    simp only [pcm_from_chunk_cons, List.length_append, int16le_length, ih,
      List.length_cons]
    omega

/-- Claim C4: PCM frame encoding is the deterministic per-sample pipeline
clamp to [-1, 1], scale by 32767, truncate toward zero, serialise as
two's-complement little-endian 16-bit; every computed integer lies in the
int16 range even for out-of-range inputs, and the output is 2 bytes per
sample. -/
theorem C4_pcm_encoding :
    ∀ chunk : Frame,
      pcm_from_chunk chunk =
        (chunk.map (fun x => int16le (truncQ (clamp x * 32767)))).flatten
      ∧ (pcm_from_chunk chunk).length = 2 * chunk.length
      ∧ ∀ x : ℚ,
          -32768 ≤ sampleToInt16 x ∧ sampleToInt16 x ≤ 32767
          ∧ int16le (sampleToInt16 x) = u16le (sampleToInt16 x % 65536).toNat
          ∧ (int16le (sampleToInt16 x)).length = 2 := by
  intro chunk
  refine ⟨rfl, pcm_from_chunk_length chunk, fun x => ?_⟩
  obtain ⟨h1, h2⟩ := sampleToInt16_bounds x
  exact ⟨by omega, h2, rfl, rfl⟩

theorem pystrip_empty : pystrip ("") = ("") := rfl

/-- The `/tts` validation condition is false on text with non-empty
strip. -/
theorem valid_text_cond (text : String) (h : pystrip text ≠ ("")) :
    ¬(text = ("") ∨ pystrip text = ("")) := by
  rintro (rfl | h2)
  · exact h rfl
  · exact h h2

/-- The generator's flattened output: header, then the PCM of each frame
in production order, then the trailing silence. -/
theorem generate_streaming_wav_flatten (chunks : List Frame) (sr : ℕ) :
    (generate_streaming_wav chunks sr).flatten =
      make_wav_header sr 1 16 ++ (chunks.map pcm_from_chunk).flatten ++
        silence_block sr := by
  simp [generate_streaming_wav]

/-- Claim C1: on every successful streaming request, over both the HTTP
`/tts` transport and the raw-socket transport, the emitted chunk sequence
is the 44-byte streaming header first - independent of the frame sequence,
so observable before any frame is produced - then the PCM encoding of each
engine frame in production order with no reordering, dropping or
duplication, then the trailing silence block last. -/
theorem C1_stream_order {σ : Type} (loader : Model σ) (st : DaemonState σ)
    (text voice : String) (htext : pystrip text ≠ ("")) (hvoice : voice ∈ VOICES) :
    text_to_speech loader st text voice =
      (.streaming
        (generate_streaming_wav
          ((get_model loader st).1.generate_audio_stream
            (get_voice_state loader (get_model loader st).2 voice).1 (pystrip text))
          (get_model loader st).1.sample_rate)
        ("audio/wav") (get_model loader st).1.sample_rate,
       (get_voice_state loader (get_model loader st).2 voice).2)
    ∧ (∀ (chunks : List Frame) (sr : ℕ),
        (generate_streaming_wav chunks sr).flatten =
          make_wav_header sr 1 16 ++ (chunks.map pcm_from_chunk).flatten ++
            silence_block sr
        ∧ (generate_streaming_wav chunks sr).head? = some (make_wav_header sr 1 16)
        ∧ (generate_streaming_wav chunks sr).getLast? = some (silence_block sr))
    ∧ (∀ (m : Model σ) (rst : RawState σ) (data : String),
        handle_client m rst data =
          ((raw_sends m
            (m.generate_audio_stream
              (raw_resolve_state m rst (parse_request data).1).1
              (parse_request data).2)).flatten,
           (raw_resolve_state m rst (parse_request data).1).2)
        ∧ ∀ (chunks : List Frame),
            (raw_sends m chunks).flatten =
              raw_make_wav_header m.sample_rate ++
                (chunks.map pcm_from_chunk).flatten ++ silence_block m.sample_rate
            ∧ (raw_sends m chunks).head? = some (raw_make_wav_header m.sample_rate)
            ∧ (raw_sends m chunks).getLast? = some (silence_block m.sample_rate)) := by
  refine ⟨?_, ?_, ?_⟩
  · unfold text_to_speech
    rw [if_neg (valid_text_cond text htext), if_neg (not_not_intro hvoice)]
  · intro chunks sr
    refine ⟨generate_streaming_wav_flatten chunks sr, rfl, ?_⟩
    show (make_wav_header sr 1 16 ::
      (chunks.map pcm_from_chunk ++ [silence_block sr])).getLast? =
      some (silence_block sr)
    rw [← List.cons_append, List.getLast?_concat]
  · intro m rst data
    refine ⟨rfl, fun chunks => ⟨by simp [raw_sends], rfl, ?_⟩⟩
    show (raw_make_wav_header m.sample_rate ::
      (chunks.map pcm_from_chunk ++ [silence_block m.sample_rate])).getLast? =
      some (silence_block m.sample_rate)
    rw [← List.cons_append, List.getLast?_concat]

/-- Witness for `C1_stream_order`: a concrete request with warmable
engine `mA`, text Hello and voice alba satisfies the hypotheses, and the
response is the streaming response over the engine's frames. -/
theorem C1_stream_order_witness :
    pystrip ("Hello") ≠ ("") ∧ ("alba") ∈ VOICES ∧
    text_to_speech mA (initState ℕ) ("Hello") ("alba") =
      (.streaming
        (generate_streaming_wav
          ((get_model mA (initState ℕ)).1.generate_audio_stream
            (get_voice_state mA (get_model mA (initState ℕ)).2 ("alba")).1
            (pystrip ("Hello")))
          (get_model mA (initState ℕ)).1.sample_rate)
        ("audio/wav") (get_model mA (initState ℕ)).1.sample_rate,
       (get_voice_state mA (get_model mA (initState ℕ)).2 ("alba")).2) :=
  ⟨by decide, by decide,
    (C1_stream_order mA (initState ℕ) ("Hello") ("alba") (by decide) (by decide)).1⟩

/-- Zeta-expanded form of the `/tts` handler. -/
theorem text_to_speech_eq {σ : Type} (loader : Model σ) (st : DaemonState σ)
    (text voice : String) :
    text_to_speech loader st text voice =
      if text = ("") ∨ pystrip text = ("") then
        (.error ⟨400, "Text cannot be empty"⟩, st)
      else if voice ∉ VOICES then
        (.error ⟨400, invalid_voice_detail voice⟩, st)
      else
        (.streaming
          (generate_streaming_wav
            ((get_model loader st).1.generate_audio_stream
              (get_voice_state loader (get_model loader st).2 voice).1 (pystrip text))
            (get_model loader st).1.sample_rate)
          ("audio/wav") (get_model loader st).1.sample_rate,
         (get_voice_state loader (get_model loader st).2 voice).2) := rfl

/-- Zeta-expanded form of the `/tts/buffered` handler. -/
theorem text_to_speech_buffered_eq {σ : Type} (loader : Model σ) (st : DaemonState σ)
    (text voice : String) :
    text_to_speech_buffered loader st text voice =
      if text = ("") ∨ pystrip text = ("") then
        (.error ⟨400, "Text cannot be empty"⟩, st)
      else if voice ∉ VOICES then
        (.error ⟨400, invalid_voice_detail voice⟩, st)
      else if (get_model loader st).1.generate_audio_stream
          (get_voice_state loader (get_model loader st).2 voice).1 (pystrip text) = [] then
        (.error ⟨500, "No audio generated"⟩,
         (get_voice_state loader (get_model loader st).2 voice).2)
      else
        (.buffered
          (exactHeader (get_model loader st).1.sample_rate
            (pcm_from_chunk ((get_model loader st).1.generate_audio_stream
              (get_voice_state loader (get_model loader st).2 voice).1
              (pystrip text)).flatten).length ++
           pcm_from_chunk ((get_model loader st).1.generate_audio_stream
              (get_voice_state loader (get_model loader st).2 voice).1
              (pystrip text)).flatten)
          ("audio/wav"),
         (get_voice_state loader (get_model loader st).2 voice).2) := rfl

/-- The raw server's sent bytes: header, PCM of each frame in order,
silence. -/
theorem raw_sends_flatten {σ : Type} (m : Model σ) (chunks : List Frame) :
    (raw_sends m chunks).flatten =
      raw_make_wav_header m.sample_rate ++ (chunks.map pcm_from_chunk).flatten ++
        silence_block m.sample_rate := by
  simp [raw_sends]

/-- Claim C3 counterexample: the buffered endpoint appends no trailing
silence.  With engine `mB` (one frame holding the single sample `1.0`) a
valid buffered request yields a 46-byte body whose PCM payload is
`[255, 127]`; the 9600-byte silence block is not a suffix of that body,
so the buffered response does not end with the trailing silence block the
claim requires on every transport. -/
theorem clamp_one : clamp 1 = 1 := by norm_num [clamp]

theorem sampleToInt16_one : sampleToInt16 1 = 32767 := by
  rw [sampleToInt16, clamp_one, truncQ, if_pos (by norm_num : (0 : ℚ) ≤ 1 * 32767)]
  rw [show ((1 : ℚ) * 32767) = ((32767 : ℤ) : ℚ) by norm_num, Int.floor_intCast]

theorem pcm_one : pcm_from_chunk [(1 : ℚ)] = [255, 127] := by
  rw [show pcm_from_chunk [(1 : ℚ)] = int16le (sampleToInt16 1) ++ [] from rfl,
    sampleToInt16_one]
  rfl

theorem C3_counterexample :
    (text_to_speech_buffered mB (initState ℕ) ("hi") ("alba")).1 =
      .buffered (exactHeader 24000 2 ++ [255, 127]) ("audio/wav")
    ∧ ¬ silence_block 24000 <:+ (exactHeader 24000 2 ++ [255, 127]) := by
  constructor
  · rw [show (text_to_speech_buffered mB (initState ℕ) ("hi") ("alba")).1 =
      Response.buffered (exactHeader 24000 (pcm_from_chunk [(1 : ℚ)]).length ++
        pcm_from_chunk [(1 : ℚ)]) ("audio/wav") from rfl, pcm_one]
    rfl
  · intro hsuf
    have hlen := hsuf.length_le
    have h1 : (silence_block 24000).length = 9600 := by
      show (List.replicate (silence_samples 24000 * 2) (0 : ℕ)).length = 9600
      rw [List.length_replicate]
      rfl
    have h2 : (exactHeader 24000 2 ++ [255, 127]).length = 46 := rfl
    omega

/-- Claim C3 amended: the streaming HTTP and raw-socket responses end
with exactly one trailing silence block of `int(sampleRate * 0.2)`
zero-valued 16-bit samples (which equals `round(sampleRate * 0.2)` at
every sample rate divisible by 5, in particular at the fixed 24000 Hz);
the buffered HTTP endpoint appends no silence - its body is exactly the
exact-size header followed by the PCM payload. -/
theorem C3_trailing_silence {σ : Type} (sr : ℕ) (hsr : sr % 5 = 0)
    (chunks : List Frame) (m : Model σ) (rst : RawState σ) (data : String)
    (loader : Model σ) (st : DaemonState σ) (text voice : String) :
    silence_block sr = List.replicate (silence_samples sr * 2) 0
    ∧ (silence_samples sr : ℤ) = round ((sr : ℚ) * (2 / 10))
    ∧ (generate_streaming_wav chunks sr).flatten =
        (make_wav_header sr 1 16 ++ (chunks.map pcm_from_chunk).flatten) ++
          silence_block sr
    ∧ silence_block m.sample_rate <:+ (handle_client m rst data).1
    ∧ ((get_model loader st).1.generate_audio_stream
          (get_voice_state loader (get_model loader st).2 voice).1 (pystrip text) ≠ [] →
        pystrip text ≠ ("") → voice ∈ VOICES →
        text_to_speech_buffered loader st text voice =
          (.buffered
            (exactHeader (get_model loader st).1.sample_rate
              (pcm_from_chunk ((get_model loader st).1.generate_audio_stream
                (get_voice_state loader (get_model loader st).2 voice).1
                (pystrip text)).flatten).length ++
             pcm_from_chunk ((get_model loader st).1.generate_audio_stream
                (get_voice_state loader (get_model loader st).2 voice).1
                (pystrip text)).flatten)
            ("audio/wav"),
           (get_voice_state loader (get_model loader st).2 voice).2)) := by
  obtain ⟨k, rfl⟩ : ∃ k, sr = 5 * k := ⟨sr / 5, by omega⟩
  refine ⟨rfl, ?_, ?_, ?_, ?_⟩
  · have h5 : (5 * k) / 5 = k := by omega
    have hq : ((5 * k : ℕ) : ℚ) * (2 / 10) = (k : ℚ) := by push_cast; ring
    simp only [silence_samples, h5, hq, round_natCast]
  · exact generate_streaming_wav_flatten chunks (5 * k)
  · rw [show (handle_client m rst data).1 =
      (raw_sends m (m.generate_audio_stream
        (raw_resolve_state m rst (parse_request data).1).1
        (parse_request data).2)).flatten from rfl, raw_sends_flatten]
    exact List.suffix_append _ _
  · intro hne htext hvoice
    rw [text_to_speech_buffered_eq, if_neg (valid_text_cond text htext),
      if_neg (not_not_intro hvoice), if_neg hne]

/-- Witness for `C3_trailing_silence` at sample rate 24000, the raw
request x-newline-y against engine `mB`, and the concrete buffered
request hi / alba (whose frame list `[[1]]` is non-empty). -/
theorem C3_trailing_silence_witness :
    24000 % 5 = 0
    ∧ (silence_samples 24000 : ℤ) = round ((24000 : ℚ) * (2 / 10))
    ∧ silence_block 24000 <:+ (handle_client mB (⟨[], []⟩ : RawState ℕ) ("x\ny")).1
    ∧ text_to_speech_buffered mB (initState ℕ) ("hi") ("alba") =
        (.buffered
          (exactHeader (get_model mB (initState ℕ)).1.sample_rate
            (pcm_from_chunk ((get_model mB (initState ℕ)).1.generate_audio_stream
              (get_voice_state mB (get_model mB (initState ℕ)).2 ("alba")).1
              (pystrip ("hi"))).flatten).length ++
           pcm_from_chunk ((get_model mB (initState ℕ)).1.generate_audio_stream
              (get_voice_state mB (get_model mB (initState ℕ)).2 ("alba")).1
              (pystrip ("hi"))).flatten)
          ("audio/wav"),
         (get_voice_state mB (get_model mB (initState ℕ)).2 ("alba")).2) := by
  have h := C3_trailing_silence 24000 (by norm_num) [] mB (⟨[], []⟩ : RawState ℕ)
    ("x\ny") mB (initState ℕ) ("hi") ("alba")
  exact ⟨by norm_num, h.2.1, h.2.2.2.1, h.2.2.2.2 (by decide) (by decide) (by decide)⟩

/-- An infix of a list is an infix of any extension on the left. -/
theorem list_within_extend {α : Type} {l m : List α} (pre : List α) (h : l <:+: m) :
    l <:+: pre ++ m := by
  obtain ⟨s, t, rfl⟩ := h
  exact ⟨pre ++ s, t, by simp⟩

set_option maxRecDepth 8000 in
/-- Every supported voice name occurs in the repr of the voice list. -/
theorem voice_names_in_repr : ∀ v ∈ VOICES, v.toList <:+: voices_repr.toList := by decide

/-- Every supported voice name occurs in the unknown-voice 400 detail. -/
theorem voice_names_in_detail (voice : String) :
    ∀ v ∈ VOICES, v.toList <:+: (invalid_voice_detail voice).toList := by
  intro v hv
  have hd : (invalid_voice_detail voice).toList =
      (("Invalid voice ") ++ sq ++ voice ++ sq ++ (". Available: ")).toList ++
        voices_repr.toList := rfl
  rw [hd]
  exact list_within_extend _ (voice_names_in_repr v hv)

/-- Claim C5: on both HTTP endpoints, a 400 client-input error is
signalled exactly when the text strips to empty or the voice is outside
the 8-element voice set; the text check precedes the voice check (a
request failing both gets the text error); the unknown-voice message
enumerates every valid voice; and on any validation failure the state -
hence engine and voice-state instrumentation - is unchanged. -/
theorem C5_validation {σ : Type} (loader : Model σ) (st : DaemonState σ)
    (text voice : String) :
    VOICES.length = 8
    ∧ ((∃ e, (text_to_speech loader st text voice).1 = .error e ∧ e.status_code = 400) ↔
        (pystrip text = ("") ∨ voice ∉ VOICES))
    ∧ ((∃ e, (text_to_speech_buffered loader st text voice).1 = .error e ∧
          e.status_code = 400) ↔
        (pystrip text = ("") ∨ voice ∉ VOICES))
    ∧ (pystrip text = ("") →
        text_to_speech loader st text voice = (.error ⟨400, "Text cannot be empty"⟩, st)
        ∧ text_to_speech_buffered loader st text voice =
            (.error ⟨400, "Text cannot be empty"⟩, st))
    ∧ (pystrip text ≠ ("") → voice ∉ VOICES →
        text_to_speech loader st text voice =
          (.error ⟨400, invalid_voice_detail voice⟩, st)
        ∧ text_to_speech_buffered loader st text voice =
            (.error ⟨400, invalid_voice_detail voice⟩, st))
    ∧ (∀ v ∈ VOICES, v.toList <:+: (invalid_voice_detail voice).toList) := by
  refine ⟨rfl, ?_, ?_, ?_, ?_, voice_names_in_detail voice⟩
  · constructor
    · rintro ⟨e, he, h400⟩
      by_cases ht : pystrip text = ("")
      · exact Or.inl ht
      · by_cases hv : voice ∈ VOICES
        · exfalso
          rw [text_to_speech_eq, if_neg (valid_text_cond text ht),
            if_neg (not_not_intro hv)] at he
          simp at he
        · exact Or.inr hv
    · intro hbad
      by_cases ht : pystrip text = ("")
      · refine ⟨⟨400, "Text cannot be empty"⟩, ?_, rfl⟩
        rw [text_to_speech_eq, if_pos (Or.inr ht)]
      · rcases hbad with ht2 | hv
        · exact absurd ht2 ht
        · refine ⟨⟨400, invalid_voice_detail voice⟩, ?_, rfl⟩
          rw [text_to_speech_eq, if_neg (valid_text_cond text ht), if_pos hv]
  · constructor
    · rintro ⟨e, he, h400⟩
      by_cases ht : pystrip text = ("")
      · exact Or.inl ht
      · by_cases hv : voice ∈ VOICES
        · exfalso
          by_cases hc : (get_model loader st).1.generate_audio_stream
              (get_voice_state loader (get_model loader st).2 voice).1
              (pystrip text) = []
          · rw [text_to_speech_buffered_eq, if_neg (valid_text_cond text ht),
              if_neg (not_not_intro hv), if_pos hc] at he
            simp at he
            rw [← he] at h400
            simp at h400
          · rw [text_to_speech_buffered_eq, if_neg (valid_text_cond text ht),
              if_neg (not_not_intro hv), if_neg hc] at he
            simp at he
        · exact Or.inr hv
    · intro hbad
      by_cases ht : pystrip text = ("")
      · refine ⟨⟨400, "Text cannot be empty"⟩, ?_, rfl⟩
        rw [text_to_speech_buffered_eq, if_pos (Or.inr ht)]
      · rcases hbad with ht2 | hv
        · exact absurd ht2 ht
        · refine ⟨⟨400, invalid_voice_detail voice⟩, ?_, rfl⟩
          rw [text_to_speech_buffered_eq, if_neg (valid_text_cond text ht), if_pos hv]
  · intro ht
    constructor
    · rw [text_to_speech_eq, if_pos (Or.inr ht)]
    · rw [text_to_speech_buffered_eq, if_pos (Or.inr ht)]
  · intro ht hv
    constructor
    · rw [text_to_speech_eq, if_neg (valid_text_cond text ht), if_pos hv]
    · rw [text_to_speech_buffered_eq, if_neg (valid_text_cond text ht), if_pos hv]

/-- Witness for `C5_validation`: whitespace text gets the text error
(before the invalid voice is even considered), and valid text with the
unknown voice nope gets the enumerating voice error; in both cases the
state is unchanged. -/
theorem C5_validation_witness :
    pystrip ("   ") = ("")
    ∧ text_to_speech mA (initState ℕ) ("   ") ("nope") =
        (.error ⟨400, "Text cannot be empty"⟩, initState ℕ)
    ∧ text_to_speech_buffered mA (initState ℕ) ("Hello") ("nope") =
        (.error ⟨400, invalid_voice_detail ("nope")⟩, initState ℕ) :=
  ⟨by decide,
    ((C5_validation mA (initState ℕ) ("   ") ("nope")).2.2.2.1 (by decide)).1,
    ((C5_validation mA (initState ℕ) ("Hello") ("nope")).2.2.2.2.1 (by decide)
      (by decide)).2⟩

/-- The exact-size header, written out as an explicit byte list. -/
theorem exactHeader_eq (sr n : ℕ) :
    exactHeader sr n =
      [82, 73, 70, 70] ++ u32le (n + 36) ++
      [87, 65, 86, 69, 102, 109, 116, 32, 16, 0, 0, 0, 1, 0, 1, 0] ++ u32le sr ++
      u32le (sr * 2) ++ [2, 0, 16, 0, 100, 97, 116, 97] ++ u32le n := rfl

/-- Claim C6: under passing validation, the buffered endpoint drains the
engine's frame list; a 500 error is returned exactly when that list is
empty; otherwise the single body is the exact-size header followed by the
PCM payload of all frames concatenated, 2 bytes per total sample, and the
header's declared data size and file size fields recover the payload byte
length. -/
theorem C6_buffered {σ : Type} (loader : Model σ) (st : DaemonState σ)
    (text voice : String) (htext : pystrip text ≠ ("")) (hvoice : voice ∈ VOICES) :
    ((get_model loader st).1.generate_audio_stream
        (get_voice_state loader (get_model loader st).2 voice).1 (pystrip text) = [] →
      text_to_speech_buffered loader st text voice =
        (.error ⟨500, "No audio generated"⟩,
         (get_voice_state loader (get_model loader st).2 voice).2))
    ∧ (∀ chunks : List Frame,
        (get_model loader st).1.generate_audio_stream
          (get_voice_state loader (get_model loader st).2 voice).1 (pystrip text) =
            chunks →
        chunks ≠ [] →
        text_to_speech_buffered loader st text voice =
          (.buffered (exactHeader (get_model loader st).1.sample_rate
              (pcm_from_chunk chunks.flatten).length ++ pcm_from_chunk chunks.flatten)
            ("audio/wav"),
           (get_voice_state loader (get_model loader st).2 voice).2)
        ∧ (pcm_from_chunk chunks.flatten).length = 2 * (chunks.map List.length).sum)
    ∧ ((∃ e, (text_to_speech_buffered loader st text voice).1 = .error e ∧
          e.status_code = 500) ↔
        (get_model loader st).1.generate_audio_stream
          (get_voice_state loader (get_model loader st).2 voice).1 (pystrip text) = [])
    ∧ (∀ sr n : ℕ, n + 36 < 4294967296 →
        (exactHeader sr n).length = 44
        ∧ leVal (slice (exactHeader sr n) 40 44) = n
        ∧ leVal (slice (exactHeader sr n) 4 8) = n + 36) := by
  refine ⟨?_, ?_, ?_, ?_⟩
  · intro hc
    rw [text_to_speech_buffered_eq, if_neg (valid_text_cond text htext),
      if_neg (not_not_intro hvoice), if_pos hc]
  · intro chunks hc hne
    subst hc
    refine ⟨?_, ?_⟩
    · rw [text_to_speech_buffered_eq, if_neg (valid_text_cond text htext),
        if_neg (not_not_intro hvoice), if_neg hne]
    · rw [pcm_from_chunk_length, List.length_flatten]
  · constructor
    · rintro ⟨e, he, h500⟩
      by_cases hc : (get_model loader st).1.generate_audio_stream
          (get_voice_state loader (get_model loader st).2 voice).1 (pystrip text) = []
      · exact hc
      · exfalso
        rw [text_to_speech_buffered_eq, if_neg (valid_text_cond text htext),
          if_neg (not_not_intro hvoice), if_neg hc] at he
        simp at he
    · intro hc
      refine ⟨⟨500, "No audio generated"⟩, ?_, rfl⟩
      rw [text_to_speech_buffered_eq, if_neg (valid_text_cond text htext),
        if_neg (not_not_intro hvoice), if_pos hc]
  · intro sr n h
    refine ⟨by simp [exactHeader_eq, u32le], ?_, ?_⟩
    · simp [exactHeader_eq, u32le, slice, leVal]
      omega
    · simp [exactHeader_eq, u32le, slice, leVal]
      omega

/-- Witness for `C6_buffered`: engine `mB` on valid input hi / alba
yields the non-empty frame list `[[1]]`; the PCM payload is 2 bytes for
the single sample, and the exact header's data size field recovers the
payload length 2. -/
theorem C6_buffered_witness :
    pystrip ("hi") ≠ ("") ∧ ("alba") ∈ VOICES
    ∧ (pcm_from_chunk ([[1]] : List Frame).flatten).length =
        2 * (([[1]] : List Frame).map List.length).sum
    ∧ leVal (slice (exactHeader 24000 2) 40 44) = 2 := by
  have h := C6_buffered mB (initState ℕ) ("hi") ("alba") (by decide) (by decide)
  exact ⟨by decide, by decide, (h.2.1 [[1]] (by decide) (by decide)).2,
    (h.2.2.2 24000 2 (by norm_num)).2.1⟩

theorem lookupVoice_append_some {σ : Type} {m : List (String × σ)} {v : String} {s : σ}
    (h : lookupVoice m v = some s) (m2 : List (String × σ)) :
    lookupVoice (m ++ m2) v = some s := by
  induction m with
  | nil => simp [lookupVoice] at h
  | cons p rest ih =>
    obtain ⟨k, s2⟩ := p
    by_cases hk : k = v
    · simp only [lookupVoice, if_pos hk] at h
      simp only [List.cons_append, lookupVoice, if_pos hk]
      exact h
    · simp only [lookupVoice, if_neg hk] at h
      simp only [List.cons_append, lookupVoice, if_neg hk]
      exact ih h

theorem lookupVoice_append_self {σ : Type} {m : List (String × σ)} {v : String}
    (h : lookupVoice m v = none) (s : σ) :
    lookupVoice (m ++ [(v, s)]) v = some s := by
  induction m with
  | nil => simp [lookupVoice]
  | cons p rest ih =>
    obtain ⟨k, s2⟩ := p
    by_cases hk : k = v
    · simp only [lookupVoice, if_pos hk] at h
      exact Option.noConfusion h
    · simp only [lookupVoice, if_neg hk] at h
      simp only [List.cons_append, lookupVoice, if_neg hk]
      exact ih h

theorem countStr_append (v : String) (l1 l2 : List String) :
    countStr v (l1 ++ l2) = countStr v l1 + countStr v l2 := by
  induction l1 with
  | nil => simp [countStr]
  | cons w ws ih =>
    show (if w = v then 1 else 0) + countStr v (ws ++ l2) =
      ((if w = v then 1 else 0) + countStr v ws) + countStr v l2
    rw [ih]
    omega

theorem countStr_eq_zero {v : String} {l : List String} (h : v ∉ l) :
    countStr v l = 0 := by
  induction l with
  | nil => rfl
  | cons w ws ih =>
    simp only [List.mem_cons, not_or] at h
    have hw : ¬ (w = v) := fun hw => h.1 hw.symm
    show (if w = v then 1 else 0) + countStr v ws = 0
    rw [if_neg hw, ih h.2]

/-- `get_voice_state` on a cache hit returns the cached state and leaves
the state untouched. -/
theorem get_voice_state_cached {σ : Type} (loader : Model σ) (st : DaemonState σ)
    {voice : String} {s : σ} (h : lookupVoice st._voice_states voice = some s) :
    get_voice_state loader st voice = (s, st) := by
  simp [get_voice_state, h]

/-- `get_voice_state` on a cache miss computes via the engine, stores the
result under the voice key, and logs the conditioning call. -/
theorem get_voice_state_miss {σ : Type} (loader : Model σ) (st : DaemonState σ)
    {voice : String} (h : lookupVoice st._voice_states voice = none) :
    get_voice_state loader st voice =
      ((get_model loader st).1.get_state_for_audio_prompt voice,
       { (get_model loader st).2 with
         _voice_states := (get_model loader st).2._voice_states ++
           [(voice, (get_model loader st).1.get_state_for_audio_prompt voice)],
         prompt_calls := (get_model loader st).2.prompt_calls ++ [voice] }) := by
  simp [get_voice_state, h]

/-- `get_model` never touches the voice cache or the conditioning-call
log. -/
theorem get_model_preserves {σ : Type} (loader : Model σ) (st : DaemonState σ) :
    (get_model loader st).2._voice_states = st._voice_states ∧
    (get_model loader st).2.prompt_calls = st.prompt_calls := by
  cases h : st._model <;> simp [get_model, h]

/-- One `get_voice_state` call preserves the cache invariant: every voice
was conditioned at most once, and every conditioned voice is cached. -/
theorem get_voice_state_inv {σ : Type} (loader : Model σ) (st : DaemonState σ)
    (voice : String)
    (hinv : ∀ w, countStr w st.prompt_calls ≤ 1 ∧
      (w ∈ st.prompt_calls → (lookupVoice st._voice_states w).isSome)) :
    ∀ w, countStr w (get_voice_state loader st voice).2.prompt_calls ≤ 1 ∧
      (w ∈ (get_voice_state loader st voice).2.prompt_calls →
        (lookupVoice (get_voice_state loader st voice).2._voice_states w).isSome) := by
  intro w
  cases hl : lookupVoice st._voice_states voice with
  | some s =>
    rw [get_voice_state_cached loader st hl]
    exact hinv w
  | none =>
    rw [get_voice_state_miss loader st hl]
    obtain ⟨hvs, hpc⟩ := get_model_preserves loader st
    simp only [hvs, hpc]
    constructor
    · rw [countStr_append]
      by_cases hw : w = voice
      · subst hw
        have hnotin : w ∉ st.prompt_calls := fun hmem => by
          have := (hinv w).2 hmem
          rw [hl] at this
          simp at this
        simp [countStr_eq_zero hnotin, countStr]
      · have hnv : w ∉ [voice] := by
          simp only [List.mem_singleton]
          exact hw
        rw [countStr_eq_zero hnv]
        have := (hinv w).1
        omega
    · intro hmem
      rcases List.mem_append.mp hmem with hmem | hmem
      · obtain ⟨s2, hs2⟩ := Option.isSome_iff_exists.mp ((hinv w).2 hmem)
        rw [lookupVoice_append_some hs2]
        rfl
      · have hw : w = voice := by simpa using hmem
        subst hw
        rw [lookupVoice_append_self hl]
        rfl

/-- Any sequence of sequential voice-state requests from process start
conditions each voice at most once. -/
theorem run_voice_requests_count {σ : Type} (loader : Model σ) (reqs : List String) :
    ∀ st : DaemonState σ,
      (∀ w, countStr w st.prompt_calls ≤ 1 ∧
        (w ∈ st.prompt_calls → (lookupVoice st._voice_states w).isSome)) →
      ∀ w, countStr w (run_voice_requests loader st reqs).prompt_calls ≤ 1 := by
  induction reqs with
  | nil => exact fun st h w => (h w).1
  | cons v rest ih =>
    intro st h w
    exact ih _ (get_voice_state_inv loader st v h) w

/-- Claim C7: the voice-state lookup returns the cached state on a hit
without touching the state, computes / stores / returns via the engine on
a miss, and in any sequential execution from process start each voice's
conditioning computation runs at most once - in particular two sequential
requests for the same voice trigger exactly one computation. -/
theorem C7_voice_state_cache {σ : Type} (loader : Model σ) (st : DaemonState σ)
    (voice : String) (s : σ) :
    (lookupVoice st._voice_states voice = some s →
      get_voice_state loader st voice = (s, st))
    ∧ (lookupVoice st._voice_states voice = none →
        (get_voice_state loader st voice).1 =
          (get_model loader st).1.get_state_for_audio_prompt voice
        ∧ lookupVoice (get_voice_state loader st voice).2._voice_states voice =
            some ((get_model loader st).1.get_state_for_audio_prompt voice)
        ∧ (get_voice_state loader st voice).2.prompt_calls =
            st.prompt_calls ++ [voice])
    ∧ (∀ (reqs : List String) (v : String),
        countStr v (run_voice_requests loader (initState σ) reqs).prompt_calls ≤ 1)
    ∧ (∀ v : String,
        countStr v (run_voice_requests loader (initState σ) [v, v]).prompt_calls = 1) := by
  refine ⟨fun h => get_voice_state_cached loader st h, fun h => ?_, fun reqs v => ?_, ?_⟩
  · rw [get_voice_state_miss loader st h]
    obtain ⟨hvs, hpc⟩ := get_model_preserves loader st
    refine ⟨rfl, ?_, by rw [hpc]⟩
    simp only [hvs]
    exact lookupVoice_append_self (hvs ▸ h) _
  · exact run_voice_requests_count loader reqs (initState σ)
      (fun w => ⟨by simp [initState, countStr], by simp [initState]⟩) v
  · intro v
    have h1 : lookupVoice (initState σ)._voice_states v = none := rfl
    have hs1 := get_voice_state_miss loader (initState σ) h1
    have h2 : lookupVoice (get_voice_state loader (initState σ) v).2._voice_states v =
        some ((get_model loader (initState σ)).1.get_state_for_audio_prompt v) := by
      have h0 : lookupVoice (get_model loader (initState σ)).2._voice_states v =
          none := rfl
      rw [hs1]
      exact lookupVoice_append_self h0 _
    show countStr v
      (run_voice_requests loader (get_voice_state loader
        (get_voice_state loader (initState σ) v).2 v).2 []).prompt_calls = 1
    rw [get_voice_state_cached loader _ h2, hs1]
    simp [run_voice_requests, initState, countStr]

/-- Witness for `C7_voice_state_cache`: with the state alba-maps-to-7
cached, the lookup returns 7 without touching the state, and two
sequential requests for alba from process start condition alba exactly
once. -/
theorem C7_voice_state_cache_witness :
    lookupVoice ([(("alba"), 7)] : List (String × ℕ)) ("alba") = some 7
    ∧ get_voice_state mA (⟨none, [(("alba"), 7)], 0, []⟩ : DaemonState ℕ) ("alba") =
        (7, (⟨none, [(("alba"), 7)], 0, []⟩ : DaemonState ℕ))
    ∧ countStr ("alba")
        (run_voice_requests mA (initState ℕ) [("alba"), ("alba")]).prompt_calls = 1 := by
  have h := C7_voice_state_cache mA
    (⟨none, [(("alba"), 7)], 0, []⟩ : DaemonState ℕ) ("alba") 7
  exact ⟨by decide, h.1 (by decide), h.2.2.2 ("alba")⟩

/-- Python `str.split` never returns an empty list: even the empty string
splits to one empty piece. -/
theorem pysplit_ne_nil (sep : Char) (l : List Char) : pysplit sep l ≠ [] := by
  induction l with
  | nil => simp [pysplit]
  | cons c cs ih =>
    rw [pysplit]
    split
    · simp
    · split
      · simp
      · simp

/-- Claim C8 counterexample: an empty raw-socket request certainly lacks
a voice line, yet the parsed voice is the empty string, not the default
alba - `split` returns `[""]` on the stripped empty input, so the
default-voice branch never fires.  (The text default Hello world does
apply.) -/
theorem C8_counterexample :
    (parse_request ("")).1 = ("")
    ∧ (parse_request ("")).1 ≠ ("alba")
    ∧ (parse_request ("")).2 = ("Hello world") := by decide

/-- Claim C8 amended: the split line list is always non-empty, so the
voice is always the first (possibly empty) line and the raw server's
default-voice branch is unreachable; a request with fewer than two lines
does get the default text Hello world; and neither absence is an error -
the handler always answers with a header-led byte stream. -/
theorem C8_defaults (data : String) :
    pysplit '\n' (pystripList data.toList) ≠ []
    ∧ (∀ (v : List Char) (rest : List (List Char)),
        pysplit '\n' (pystripList data.toList) = v :: rest →
        (parse_request data).1 = ⟨v⟩)
    ∧ ((pysplit '\n' (pystripList data.toList)).length ≤ 1 →
        (parse_request data).2 = ("Hello world"))
    ∧ (∀ {σ : Type} (m : Model σ) (rst : RawState σ),
        (handle_client m rst data).1.take 44 = raw_make_wav_header m.sample_rate) := by
  refine ⟨pysplit_ne_nil _ _, ?_, ?_, ?_⟩
  · intro v rest h
    have h2 : pysplit '\n' (pystripList data.data) = v :: rest := h
    simp [parse_request, h2]
  · intro hlen
    cases hl : pysplit '\n' (pystripList data.toList) with
    | nil => exact absurd hl (pysplit_ne_nil _ _)
    | cons v rest =>
      cases rest with
      | nil =>
        have hl2 : pysplit '\n' (pystripList data.data) = [v] := hl
        simp [parse_request, hl2]
      | cons t ts =>
        rw [hl] at hlen
        simp at hlen
  · intro σ m rst
    have hlen : (raw_make_wav_header m.sample_rate).length = 44 := by
      simp [raw_make_wav_header_eq, u32le]
    show ((raw_sends m (m.generate_audio_stream
      (raw_resolve_state m rst (parse_request data).1).1
      (parse_request data).2)).flatten).take 44 = raw_make_wav_header m.sample_rate
    rw [raw_sends_flatten, List.append_assoc]
    exact List.take_left' hlen

/-- Witness for `C8_defaults`: the two-line request marius-newline-Hello
parses to voice marius; the one-line request x falls back to the default
text. -/
theorem C8_defaults_witness :
    (parse_request ("marius\nHello")).1 = ("marius")
    ∧ (parse_request ("x")).2 = ("Hello world") :=
  ⟨(C8_defaults ("marius\nHello")).2.1 (("marius").toList) [(("Hello").toList)]
      (by decide),
    (C8_defaults ("x")).2.2.1 (by decide)⟩

/-- Claim C9 counterexample: `get_model` performs its None-check and its
load-plus-store as separate interpreter steps with no lock, so two
threads interleaved check-check-load-load both execute the load: after
the schedule thread1-check, thread2-check, thread1-load, thread2-load,
two load operations have executed, refuting at most one load ever
executes, even under concurrent first requests. -/
theorem C9_counterexample :
    (concRun mA (concInit ℕ) [true, false, true, false]).loads = 2
    ∧ ¬ (concRun mA (concInit ℕ) [true, false, true, false]).loads ≤ 1 := by
  have h : (concRun mA (concInit ℕ) [true, false, true, false]).loads = 2 := rfl
  exact ⟨h, by omega⟩

/-- The sequential `get_model` invariant: before any call the model slot
is empty and no load has run; after any positive number of calls the slot
holds the loader and exactly one load has run. -/
theorem get_model_invariant {σ : Type} (loader : Model σ) (n : ℕ) :
    (iterate_get_model loader n)._model = (if n = 0 then none else some loader)
    ∧ (iterate_get_model loader n).load_count = (if n = 0 then 0 else 1) := by
  induction n with
  | zero => exact ⟨rfl, rfl⟩
  | succ k ih =>
    obtain ⟨h1, h2⟩ := ih
    by_cases hk : k = 0
    · subst hk
      rw [if_pos rfl] at h1
      rw [if_pos rfl] at h2
      constructor <;>
        simp [iterate_get_model, get_model, initState, h1, h2]
    · rw [if_neg hk] at h1
      rw [if_neg hk] at h2
      constructor <;>
        simp [iterate_get_model, get_model, initState, h1, h2]

/-- Claim C9 amended: in any sequence of sequential `get_model` calls at
most one load executes, and every call returns the same shared loader
reference; concurrent unsynchronised first calls, however, can duplicate
the load (see the counterexample) - the daemon avoids this in deployment
by pre-loading before serving (`run_server` calls `get_model()` first). -/
theorem C9_single_load_sequential {σ : Type} (loader : Model σ) :
    ∀ n : ℕ,
      (iterate_get_model loader n).load_count ≤ 1
      ∧ (get_model loader (iterate_get_model loader n)).1 = loader
      ∧ (get_model loader (iterate_get_model loader n)).2.load_count = 1 := by
  intro n
  obtain ⟨h1, h2⟩ := get_model_invariant loader n
  by_cases hn : n = 0
  · rw [if_pos hn] at h1
    rw [if_pos hn] at h2
    exact ⟨by omega, by simp [get_model, h1], by simp [get_model, h1, h2]⟩
  · rw [if_neg hn] at h1
    rw [if_neg hn] at h2
    exact ⟨by omega, by simp [get_model, h1], by simp [get_model, h1, h2]⟩

/-- Claim C10: the raw-socket transport validates nothing: any parsed
voice string (empty, unknown, anything) that is not yet cached is passed
straight to the engine's conditioning call and the result is stored
permanently in the shared map under that string - whereas the HTTP
handlers reject a voice outside the 8 supported ones with a 400 before
any engine or cache activity, leaving the state unchanged. -/
theorem C10_raw_no_validation {σ : Type} (m : Model σ) (rst : RawState σ)
    (data : String)
    (hmiss : lookupVoice rst.voice_states (parse_request data).1 = none) :
    (handle_client m rst data).2.prompt_calls =
        rst.prompt_calls ++ [(parse_request data).1]
    ∧ lookupVoice (handle_client m rst data).2.voice_states (parse_request data).1 =
        some (m.get_state_for_audio_prompt (parse_request data).1)
    ∧ (∀ (loader : Model σ) (st : DaemonState σ) (t v : String),
        v ∉ VOICES → pystrip t ≠ ("") →
        text_to_speech loader st t v = (.error ⟨400, invalid_voice_detail v⟩, st)
        ∧ text_to_speech_buffered loader st t v =
            (.error ⟨400, invalid_voice_detail v⟩, st)) := by
  have hres : raw_resolve_state m rst (parse_request data).1 =
      (m.get_state_for_audio_prompt (parse_request data).1,
       ⟨rst.voice_states ++ [((parse_request data).1,
          m.get_state_for_audio_prompt (parse_request data).1)],
        rst.prompt_calls ++ [(parse_request data).1]⟩) := by
    simp [raw_resolve_state, hmiss]
  refine ⟨?_, ?_, ?_⟩
  · show (raw_resolve_state m rst (parse_request data).1).2.prompt_calls =
      rst.prompt_calls ++ [(parse_request data).1]
    rw [hres]
  · show lookupVoice (raw_resolve_state m rst
      (parse_request data).1).2.voice_states (parse_request data).1 =
      some (m.get_state_for_audio_prompt (parse_request data).1)
    rw [hres]
    exact lookupVoice_append_self hmiss _
  · intro loader st t v hv ht
    constructor
    · rw [text_to_speech_eq, if_neg (valid_text_cond t ht), if_pos hv]
    · rw [text_to_speech_buffered_eq, if_neg (valid_text_cond t ht), if_pos hv]

/-- Witness for `C10_raw_no_validation`: the unknown voice nonexistent is
conditioned and cached by the raw server, while `/tts` rejects it with
the enumerating 400 and an unchanged state. -/
theorem C10_raw_no_validation_witness :
    ("nonexistent") ∉ VOICES
    ∧ (handle_client mA (⟨[], []⟩ : RawState ℕ) ("nonexistent\nHello")).2.prompt_calls =
        [("nonexistent")]
    ∧ text_to_speech mA (initState ℕ) ("Hello") ("nonexistent") =
        (.error ⟨400, invalid_voice_detail ("nonexistent")⟩, initState ℕ) := by
  have h := C10_raw_no_validation mA (⟨[], []⟩ : RawState ℕ) ("nonexistent\nHello")
    (by decide)
  have hp : (parse_request ("nonexistent\nHello")).1 = ("nonexistent") := by decide
  refine ⟨by decide, ?_,
    (h.2.2 mA (initState ℕ) ("Hello") ("nonexistent") (by decide) (by decide)).1⟩
  have h1 := h.1
  rw [hp] at h1
  exact h1

end SpeakTurbo
